import Mathlib

/-
Verification of the Z80 GlobalISel call-lowering engine
(llvm/lib/Target/Z80/GISel/Z80CallLowering.cpp).

The development shallowly embeds the control flow of the call-lowering
routines.  External collaborators (the calling-convention classification
tables behind `determineAssignments`, the register-mask tables, the
success of `determineAndHandleAssignments`) are passed in as explicit
data, exactly at the points where the C++ code consumes their results.
Machine instructions emitted by a routine are modelled as an explicit
trace list so that "returns failure before emitting anything" is a
provable statement.
-/

namespace Z80CallLowering

/-- Calling conventions mentioned by the Z80 call-lowering code.  `Other`
stands for any further convention (hitting the `default` cases). -/
inductive CallingConv
  | C
  | Fast
  | PreserveMost
  | Z80_LibCall
  | Z80_LibCall_AB
  | Z80_LibCall_AC
  | Z80_LibCall_BC
  | Z80_LibCall_L
  | Z80_LibCall_F
  | Z80_LibCall_16
  | Z80_TIFlags
  | Other
deriving DecidableEq

/-- Embeds `canGuaranteeTCO`: true exactly for `CallingConv::Fast`. -/
def canGuaranteeTCO (cc : CallingConv) : Bool :=
  cc == CallingConv.Fast

/-- Embeds `mayTailCallThisCC`: the allow-list of conventions that may ever
be tail called, falling back to `canGuaranteeTCO` in the default case. -/
def mayTailCallThisCC (cc : CallingConv) : Bool :=
  match cc with
  | .C | .PreserveMost | .Z80_LibCall | .Z80_LibCall_AB | .Z80_LibCall_AC
  | .Z80_LibCall_BC | .Z80_LibCall_L | .Z80_LibCall_F | .Z80_LibCall_16
  | .Z80_TIFlags => true
  | _ => canGuaranteeTCO cc

/-- A value slot produced by classification (`CCValAssign`): either a
physical register or a stack location at a byte offset. -/
inductive Loc
  | reg (r : Nat)
  | stack (off : Nat)
deriving DecidableEq

/-- Embeds `CCValAssign::isRegLoc`. -/
def Loc.isRegLoc : Loc → Bool
  | .reg _ => true
  | .stack _ => false

/-- Result of `determineAssignments` on an argument list: the slot assigned
to each argument (the `OutLocs` vector) together with the final
`CCState::getNextStackOffset()`, the total outgoing stack bytes. -/
structure ClassifyResult where
  locs : List Loc
  nextStackOffset : Nat
deriving DecidableEq

/-- What `getDefIgnoringCopies(Regs[0], MRI)` finds for an outgoing
argument: a `COPY` from a physical register `src`, some other defining
instruction, or no definition at all. -/
inductive DefKind
  | copy (src : Nat)
  | nonCopyInstr
  | noDef
deriving DecidableEq

/-- One outgoing argument (`ArgInfo`): its virtual registers, bundled with
the def-chain information (`regDef0`) that
`areCalleeOutgoingArgsTailCallable` queries about `Regs[0]` via
`getDefIgnoringCopies`. -/
structure OutArg where
  regs : List Nat
  regDef0 : DefKind
deriving DecidableEq

/-- Embeds `MachineOperand::clobbersPhysReg` on a call-preserved mask,
with the mask modelled as the list of preserved registers: a register is
clobbered exactly when it is not in the preserved set. -/
def clobbersPhysReg (preservedMask : List Nat) (r : Nat) : Bool :=
  !(preservedMask.contains r)

/-- Embeds one iteration of the per-location loop of
`areCalleeOutgoingArgsTailCallable` (a pair of the assigned slot and the
corresponding outgoing argument): stack slots are fine unless the call is
variadic; register slots that the caller's convention clobbers are fine;
register slots the caller's convention preserves require a single virtual
register defined by a `COPY` from that exact physical register. -/
def tailCallableArgLoc (isVarArg : Bool) (callerPreservedMask : List Nat)
    (p : Loc × OutArg) : Bool :=
  match p.1 with
  | .stack _ => !isVarArg
  | .reg r =>
    if clobbersPhysReg callerPreservedMask r then true
    else if p.2.regs.length > 1 then false
    else
      match p.2.regDef0 with
      | .copy src => src == r
      | _ => false

/-- Embeds `Z80CallLowering::areCalleeOutgoingArgsTailCallable`.
`classified` is the result of `determineAssignments` with `CC_Z80` on
`outArgs` (`none` models classification failure), `argFrameSize` is the
caller's recorded `Z80MachineFunctionInfo::getArgFrameSize()`. -/
def areCalleeOutgoingArgsTailCallable (isVarArg : Bool) (outArgs : List OutArg)
    (classified : Option ClassifyResult) (argFrameSize : Nat)
    (callerPreservedMask : List Nat) : Bool :=
  if outArgs.isEmpty then true
  else
    match classified with
    | none => false
    | some res =>
      if res.nextStackOffset > argFrameSize then false
      else (res.locs.zip outArgs).all (tailCallableArgLoc isVarArg callerPreservedMask)

/-- Embeds `Z80CallLowering::doCallerAndCalleePassArgsTheSameWay`.
`resultsCompat` is the verdict of the external `resultsCompatible` query
and `regmaskSubsetEq` the verdict of `TRI.regmaskSubsetEqual` on the two
call-preserved masks. -/
def doCallerAndCalleePassArgsTheSameWay (calleeCC callerCC : CallingConv)
    (resultsCompat regmaskSubsetEq : Bool) : Bool :=
  if calleeCC == callerCC then true
  else resultsCompat && regmaskSubsetEq

/-- The attributes of one of the caller's own formal arguments that
`isEligibleForTailCallOptimization` inspects. -/
structure CallerArg where
  byVal : Bool
  inReg : Bool
  swiftError : Bool
deriving DecidableEq

/-- Embeds `Z80CallLowering::isEligibleForTailCallOptimization` as the
short-circuit predicate chain of the source: tail call requested, no
swifterror vreg, convention may be tail called, caller has no
byval/inreg/swifterror argument, then either the guaranteed-TCO policy
decision or the sibling-call compatibility checks. -/
def isEligibleForTailCallOptimization
    (isTailCall hasSwiftErrorVReg : Bool)
    (calleeCC callerCC : CallingConv)
    (callerArgs : List CallerArg)
    (guaranteedTailCallOpt : Bool)
    (resultsCompat regmaskSubsetEq : Bool)
    (isVarArg : Bool)
    (outArgs : List OutArg) (classified : Option ClassifyResult)
    (argFrameSize : Nat) (callerPreservedMask : List Nat) : Bool :=
  if !isTailCall then false
  else if hasSwiftErrorVReg then false
  else if !mayTailCallThisCC calleeCC then false
  else if callerArgs.any (fun a => a.byVal || a.inReg || a.swiftError) then false
  else if guaranteedTailCallOpt then
    canGuaranteeTCO calleeCC && (calleeCC == callerCC)
  else if !doCallerAndCalleePassArgsTheSameWay calleeCC callerCC resultsCompat regmaskSubsetEq
  then false
  else areCalleeOutgoingArgsTailCallable isVarArg outArgs classified argFrameSize
      callerPreservedMask

/-- Data the tail-call path hands to later stages: the `FPDiff` value the
`TailCallArgHandler` is constructed with. -/
structure TailCallTrace where
  fpDiff : Int
deriving DecidableEq

/-- Instructions emitted by `lowerTailCall`, in emission order. -/
inductive TCEmit
  | callFrameSetup
  | marshalledArgs
  | callFrameDestroy (numBytes : Nat)
  | tcReturn (calleeIsReg : Bool) (fpDiffOperand : Option Int)
deriving DecidableEq

/-- Embeds `Z80CallLowering::lowerTailCall`.  `hasBTE` is whether the
caller function carries the `branch-target-enforcement` attribute,
`guaranteedTailCallOpt` the global `-tailcallopt` policy (`IsSibCall` is
its negation), `argFrameSize` the caller's recorded
`getArgFrameSize()` (`NumReusableBytes`), `classified` the result of
`determineAssignments` on the outgoing arguments, and `handleOk` the
verdict of the external `determineAndHandleAssignments` marshalling.
Mirrors the source exactly, including the fact that `NumBytes` is
initialised to `0` and never updated from `classified`, so that
`FPDiff = NumReusableBytes - NumBytes` reduces to `NumReusableBytes`.
Returns the trace (`none` on failure) and the list of emitted
instructions. -/
def lowerTailCall (hasBTE calleeIsReg : Bool) (guaranteedTailCallOpt : Bool)
    (argFrameSize : Nat) (classified : Option ClassifyResult)
    (handleOk : Bool) : Option TailCallTrace × List TCEmit :=
  if hasBTE then (none, [])
  else
    let isSibCall := !guaranteedTailCallOpt
    let setup : List TCEmit := if isSibCall then [] else [TCEmit.callFrameSetup]
    if isSibCall then
      if handleOk then
        (some { fpDiff := 0 },
         setup ++ [TCEmit.marshalledArgs, TCEmit.tcReturn calleeIsReg none])
      else (none, setup)
    else
      match classified with
      | none => (none, setup)
      | some _ =>
        let numBytes : Nat := 0
        let fpDiff : Int := (argFrameSize : Int) - (numBytes : Int)
        if handleOk then
          (some { fpDiff := fpDiff },
           setup ++ [TCEmit.marshalledArgs, TCEmit.callFrameDestroy numBytes,
                     TCEmit.tcReturn calleeIsReg (some fpDiff)])
        else (none, setup)

/-- Which lowering path `lowerCall` completed successfully. -/
inductive LoweredVia
  | tail
  | ordinary
deriving DecidableEq

/-- Instructions emitted by `lowerCall`, in emission order; the tail-call
path contributes its own trace through `fromTail`. -/
inductive CallEmit
  | fromTail (e : TCEmit)
  | callFrameSetup
  | marshalledArgs
  | callInstr (calleeIsReg : Bool)
  | retCapture
  | callFrameDestroy
deriving DecidableEq

/-- Embeds `Z80CallLowering::lowerCall`.  `origArgRegCounts` lists
`Regs.size()` of every original call argument, `retVoid` whether the
nominal return type is void and `retRegCount` the return value's
`Regs.size()`.  The eligibility parameters are fed to
`isEligibleForTailCallOptimization`, the `tc`-prefixed parameters to
`lowerTailCall`, and `ordArgsOk`/`ordRetOk` are the verdicts of the two
external `determineAndHandleAssignments` runs on the ordinary path.
Returns the successful path (`none` on failure) and the emission trace. -/
def lowerCall
    (origArgRegCounts : List Nat) (retVoid : Bool) (retRegCount : Nat)
    (isMustTailCall : Bool)
    (isTailCall hasSwiftErrorVReg : Bool)
    (calleeCC callerCC : CallingConv)
    (callerArgs : List CallerArg)
    (guaranteedTailCallOpt : Bool)
    (resultsCompat regmaskSubsetEq : Bool)
    (isVarArg : Bool)
    (outArgs : List OutArg) (classified : Option ClassifyResult)
    (argFrameSize : Nat) (callerPreservedMask : List Nat)
    (hasBTE calleeIsReg : Bool)
    (tcClassified : Option ClassifyResult) (tcHandleOk : Bool)
    (ordArgsOk ordRetOk : Bool) :
    Option LoweredVia × List CallEmit :=
  if origArgRegCounts.any (fun n => n > 1) then (none, [])
  else if !retVoid && retRegCount > 1 then (none, [])
  else
    let canTailCallOpt := isEligibleForTailCallOptimization isTailCall hasSwiftErrorVReg
        calleeCC callerCC callerArgs guaranteedTailCallOpt resultsCompat regmaskSubsetEq
        isVarArg outArgs classified argFrameSize callerPreservedMask
    if isMustTailCall && !canTailCallOpt then (none, [])
    else if canTailCallOpt then
      let r := lowerTailCall hasBTE calleeIsReg guaranteedTailCallOpt argFrameSize
          tcClassified tcHandleOk
      (r.1.map fun _ => LoweredVia.tail, r.2.map CallEmit.fromTail)
    else if !ordArgsOk then (none, [CallEmit.callFrameSetup])
    else if !retVoid && !ordRetOk then
      (none, [CallEmit.callFrameSetup, CallEmit.marshalledArgs, CallEmit.callInstr calleeIsReg])
    else
      (some LoweredVia.ordinary,
       [CallEmit.callFrameSetup, CallEmit.marshalledArgs, CallEmit.callInstr calleeIsReg] ++
         (if retVoid then [] else [CallEmit.retCapture]) ++ [CallEmit.callFrameDestroy])

/-- One formal parameter of a function as `lowerFormalArguments` sees it:
its storage size in bytes and the attributes the routine tests. -/
structure FormalArg where
  storeSize : Nat
  inReg : Bool
  swiftSelf : Bool
  swiftError : Bool
  nest : Bool
  structRet : Bool
deriving DecidableEq

/-- The parameter attributes `lowerFormalArguments` rejects as
unsupported: `inreg`, `swiftself`, `swifterror` and `nest`. -/
def unsupportedFormalAttr (a : FormalArg) : Bool :=
  a.inReg || a.swiftSelf || a.swiftError || a.nest

/-- State threaded through the `lowerFormalArguments` loop: the running
`Idx` into `VRegs`, the original positions of the parameters actually
lowered, and the `SRetReturnReg` recorded in `Z80MachineFunctionInfo`. -/
structure FormalState where
  idx : Nat
  processed : List Nat
  sret : Option Nat
deriving DecidableEq

/-- The `lowerFormalArguments` loop over the remaining (position,
parameter) pairs, from state `st`: a zero-store-size parameter is
skipped without consuming a `VRegs` index; an unsupported attribute or a
multi-register parameter fails the whole lowering; otherwise the
parameter is recorded (setting `SRetReturnReg` when it is a `StructRet`
parameter and the `ReturnSRet` policy is on) and `Idx` advances. -/
def lowerFormalArgsFrom (returnSRet : Bool) (vregs : List (List Nat)) :
    FormalState → List (Nat × FormalArg) → Option FormalState
  | st, [] => some st
  | st, pa :: rest =>
    if pa.2.storeSize = 0 then lowerFormalArgsFrom returnSRet vregs st rest
    else if unsupportedFormalAttr pa.2 || (vregs.getD st.idx []).length > 1 then none
    else
      lowerFormalArgsFrom returnSRet vregs
        { idx := st.idx + 1,
          processed := st.processed ++ [pa.1],
          sret := if pa.2.structRet && returnSRet
                  then some ((vregs.getD st.idx []).getD 0 0)
                  else st.sret } rest

/-- Pairs each parameter with its original position, starting at `n`
(the loop index of the source). -/
def enumArgs (n : Nat) : List FormalArg → List (Nat × FormalArg)
  | [] => []
  | a :: rest => (n, a) :: enumArgs (n + 1) rest

/-- Embeds the argument loop of `Z80CallLowering::lowerFormalArguments`:
the per-parameter processing described at `processFormalArg`, over all
parameters in order.  Returns the final recorded state, or `none` when
the lowering fails. -/
def lowerFormalArguments (returnSRet : Bool) (args : List FormalArg)
    (vregs : List (List Nat)) : Option FormalState :=
  lowerFormalArgsFrom returnSRet vregs { idx := 0, processed := [], sret := none }
    (enumArgs 0 args)

/-- The type `lowerReturn` classifies: the hidden struct-return pointer
type (`Type::getInt8PtrTy`) or the nominal return value's own type. -/
inductive RetTy
  | i8ptr
  | valTy
deriving DecidableEq

/-- Embeds the classification-target selection of
`Z80CallLowering::lowerReturn`: when a `SRetReturnReg` was recorded, the
lowered value list becomes that single register with the i8-pointer
type, replacing the nominal (empty, void) `VRegs`; otherwise the nominal
registers and type are used (`none` when there is no return value). -/
def lowerReturnTarget (sretReturnReg : Option Nat) (vregs : List Nat) :
    List Nat × Option RetTy :=
  match sretReturnReg with
  | some r => ([r], some RetTy.i8ptr)
  | none => (vregs, if vregs.isEmpty then none else some RetTy.valTy)

/-- Every element of `enumArgs n l` pairs an element of `l` with its
position; conversely every element of `l` appears at some position. -/
theorem mem_enumArgs_of_mem (args : List FormalArg) (a : FormalArg) (ha : a ∈ args) :
    ∀ n, ∃ i, (i, a) ∈ enumArgs n args := by
  induction args with
  | nil => cases ha
  | cons b rest ih =>
    intro n
    rcases List.mem_cons.mp ha with heq | hmem
    · subst heq
      exact ⟨n, by simp [enumArgs]⟩
    · rcases ih hmem (n + 1) with ⟨i, hi⟩
      exact ⟨i, by simp [enumArgs, hi]⟩

/-- The formal-argument loop records exactly the positions of the
parameters with nonzero storage size, in order. -/
theorem lowerFormalArgsFrom_processed (returnSRet : Bool) (vregs : List (List Nat))
    (l : List (Nat × FormalArg)) :
    ∀ st st1, lowerFormalArgsFrom returnSRet vregs st l = some st1 →
      st1.processed
        = st.processed ++ (l.filter fun pa => pa.2.storeSize != 0).map Prod.fst := by
  induction l with
  | nil =>
    intro st st1 h
    simp only [lowerFormalArgsFrom, Option.some.injEq] at h
    subst h
    simp
  | cons pa rest ih =>
    intro st st1 h
    simp only [lowerFormalArgsFrom] at h
    by_cases hz : pa.2.storeSize = 0
    · rw [if_pos hz] at h
      have hrec := ih st st1 h
      simpa [List.filter_cons, hz] using hrec
    · rw [if_neg hz] at h
      split at h
      · exact absurd h (by simp)
      · have hrec := ih _ st1 h
        simpa [List.filter_cons, hz, List.append_assoc] using hrec

/-- The formal-argument loop fails whenever some remaining parameter has
nonzero storage size and an unsupported attribute. -/
theorem lowerFormalArgsFrom_reject (returnSRet : Bool) (vregs : List (List Nat))
    (l : List (Nat × FormalArg)) :
    ∀ st pa, pa ∈ l → pa.2.storeSize ≠ 0 → unsupportedFormalAttr pa.2 = true →
      lowerFormalArgsFrom returnSRet vregs st l = none := by
  induction l with
  | nil =>
    intro st pa hmem
    cases hmem
  | cons q rest ih =>
    intro st pa hmem hz hattr
    simp only [lowerFormalArgsFrom]
    rcases List.mem_cons.mp hmem with heq | hmem2
    · subst heq
      rw [if_neg hz]
      simp [hattr]
    · by_cases hz2 : q.2.storeSize = 0
      · rw [if_pos hz2]
        exact ih st pa hmem2 hz hattr
      · rw [if_neg hz2]
        split
        · rfl
        · exact ih _ pa hmem2 hz hattr

/-- Once a struct-return register has been recorded, the rest of the
formal-argument loop keeps one recorded. -/
theorem lowerFormalArgsFrom_sret_isSome (returnSRet : Bool) (vregs : List (List Nat))
    (l : List (Nat × FormalArg)) :
    ∀ st st1, st.sret.isSome = true →
      lowerFormalArgsFrom returnSRet vregs st l = some st1 → st1.sret.isSome = true := by
  induction l with
  | nil =>
    intro st st1 hs h
    simp only [lowerFormalArgsFrom, Option.some.injEq] at h
    subst h
    exact hs
  | cons q rest ih =>
    intro st st1 hs h
    simp only [lowerFormalArgsFrom] at h
    split at h
    · exact ih st st1 hs h
    · split at h
      · exact absurd h (by simp)
      · refine ih _ st1 ?_ h
        by_cases hsr : (q.2.structRet && returnSRet) = true
        · simp [hsr]
        · simpa [hsr] using hs

/-- Under the `ReturnSRet` policy, successfully lowering a parameter list
containing a nonzero-size struct-return parameter records a
struct-return register. -/
theorem lowerFormalArgsFrom_sret_set (vregs : List (List Nat))
    (l : List (Nat × FormalArg)) :
    ∀ st st1 pa, pa ∈ l → pa.2.storeSize ≠ 0 → pa.2.structRet = true →
      lowerFormalArgsFrom true vregs st l = some st1 → st1.sret.isSome = true := by
  induction l with
  | nil =>
    intro st st1 pa hmem
    cases hmem
  | cons q rest ih =>
    intro st st1 pa hmem hz hsr h
    simp only [lowerFormalArgsFrom] at h
    rcases List.mem_cons.mp hmem with heq | hmem2
    · subst heq
      rw [if_neg hz] at h
      split at h
      · exact absurd h (by simp)
      · refine lowerFormalArgsFrom_sret_isSome true vregs rest _ st1 ?_ h
        simp [hsr]
    · split at h
      · exact ih st st1 pa hmem2 hz hsr h
      · split at h
        · exact absurd h (by simp)
        · exact ih _ st1 pa hmem2 hz hsr h

/-- Every slot/argument pair examined by a successful run of
`areCalleeOutgoingArgsTailCallable` passes the per-location check. -/
theorem areCalleeOutgoingArgs_locs (isVarArg : Bool) (outArgs : List OutArg)
    (res : ClassifyResult) (argFrameSize : Nat) (mask : List Nat)
    (h : areCalleeOutgoingArgsTailCallable isVarArg outArgs (some res) argFrameSize mask
        = true)
    (p : Loc × OutArg) (hp : p ∈ res.locs.zip outArgs) :
    tailCallableArgLoc isVarArg mask p = true := by
  by_cases he : outArgs.isEmpty = true
  · rw [List.isEmpty_iff] at he
    subst he
    simp at hp
  · simp only [areCalleeOutgoingArgsTailCallable, he, if_false] at h
    by_cases hgt : res.nextStackOffset > argFrameSize
    · rw [if_pos hgt] at h
      exact absurd h (by simp)
    · rw [if_neg hgt] at h
      exact List.all_eq_true.mp h p hp

/-- C1: in `lowerTailCall` the spec states that for a non-sibling tail
call (guaranteed-TCO active) the frame delta handed to the tail-call
argument handler is the caller's incoming-argument-area size minus the
total outgoing stack bytes of the classification.  The code instead never
updates `NumBytes` from the classification, so with incoming area 2 and
classified outgoing bytes 6 it hands the handler `FPDiff = 2`, while the
specified value is `2 - 6 = -4`. -/
theorem lowerTailCall_fpDiff_ignores_outgoing_bytes :
    (lowerTailCall false false true 2
        (some { locs := [Loc.stack 0, Loc.stack 3], nextStackOffset := 6 }) true).1
      = some { fpDiff := 2 } ∧
    ((2 : Int) - (6 : Int) = -4) ∧ ((2 : Int) ≠ -4) := by decide

/-- C2: a call marked as a mandatory tail call that fails the tail-call
eligibility analysis makes `lowerCall` return overall failure without
emitting anything, in particular without emitting the ordinary call
lowering. -/
theorem lowerCall_mustTail_ineligible_fails
    (origArgRegCounts : List Nat) (retVoid : Bool) (retRegCount : Nat)
    (isTailCall hasSwiftErrorVReg : Bool) (calleeCC callerCC : CallingConv)
    (callerArgs : List CallerArg) (guaranteedTailCallOpt : Bool)
    (resultsCompat regmaskSubsetEq isVarArg : Bool)
    (outArgs : List OutArg) (classified : Option ClassifyResult)
    (argFrameSize : Nat) (mask : List Nat)
    (hasBTE calleeIsReg : Bool) (tcClassified : Option ClassifyResult)
    (tcHandleOk ordArgsOk ordRetOk : Bool)
    (hNotElig : isEligibleForTailCallOptimization isTailCall hasSwiftErrorVReg calleeCC
        callerCC callerArgs guaranteedTailCallOpt resultsCompat regmaskSubsetEq isVarArg
        outArgs classified argFrameSize mask = false) :
    lowerCall origArgRegCounts retVoid retRegCount true isTailCall hasSwiftErrorVReg
        calleeCC callerCC callerArgs guaranteedTailCallOpt resultsCompat regmaskSubsetEq
        isVarArg outArgs classified argFrameSize mask hasBTE calleeIsReg tcClassified
        tcHandleOk ordArgsOk ordRetOk = (none, []) := by
  unfold lowerCall
  simp only [hNotElig]
  split
  · rfl
  · split
    · rfl
    · simp

/-- Witness for C2 at a concrete ineligible musttail call (tail call not
even requested, so eligibility fails at step 1). -/
theorem lowerCall_mustTail_ineligible_fails_witness :
    lowerCall [1] true 0 true false false CallingConv.C CallingConv.C [] false false false
        false [] none 0 [] false false none true true true = (none, []) :=
  lowerCall_mustTail_ineligible_fails [1] true 0 false false CallingConv.C CallingConv.C
    [] false false false false [] none 0 [] false false none true true true (by decide)

/-- C3 counterexample: an outgoing argument is assigned to register 5,
which the caller's convention does not preserve (the preserved mask is
empty, so the register is clobbered), and the argument is not a
pass-through copy of that register — yet the outgoing-argument check
accepts the call, contradicting the claim that such a call is
rejected.  The pass-through requirement is applied to preserved
(callee-saved) registers, not to clobbered ones. -/
theorem nonpreserved_reg_arg_accepted_without_copy :
    clobbersPhysReg [] 5 = true ∧
    (OutArg.mk [1] DefKind.nonCopyInstr).regDef0 ≠ DefKind.copy 5 ∧
    areCalleeOutgoingArgsTailCallable false [OutArg.mk [1] DefKind.nonCopyInstr]
        (some { locs := [Loc.reg 5], nextStackOffset := 0 }) 0 [] = true := by decide

/-- C3 (amended): for every outgoing argument assigned to a register that
the caller's convention does preserve across calls (a callee-saved
register, i.e. one the caller's call-preserved mask does not clobber),
a successful outgoing-argument check guarantees the argument's value is
a direct, unmodified copy of that exact physical register. -/
theorem preserved_reg_args_are_passthrough (isVarArg : Bool) (outArgs : List OutArg)
    (res : ClassifyResult) (argFrameSize : Nat) (mask : List Nat)
    (hTrue : areCalleeOutgoingArgsTailCallable isVarArg outArgs (some res) argFrameSize
        mask = true)
    (p : Loc × OutArg) (hp : p ∈ res.locs.zip outArgs)
    (r : Nat) (hreg : p.1 = Loc.reg r) (hPres : clobbersPhysReg mask r = false) :
    p.2.regDef0 = DefKind.copy r := by
  have h := areCalleeOutgoingArgs_locs isVarArg outArgs res argFrameSize mask hTrue p hp
  simp only [tailCallableArgLoc, hreg, hPres, Bool.false_eq_true, if_false] at h
  by_cases hlen : p.2.regs.length > 1
  · rw [if_pos hlen] at h
    exact absurd h (by simp)
  · rw [if_neg hlen] at h
    cases hd : p.2.regDef0 with
    | copy src =>
      rw [hd] at h
      have hsrc : src = r := by simpa using h
      rw [hsrc]
    | nonCopyInstr =>
      rw [hd] at h
      exact absurd h (by simp)
    | noDef =>
      rw [hd] at h
      exact absurd h (by simp)

/-- Witness for the amended C3: a preserved register 5 carrying a
pass-through copy of itself. -/
theorem preserved_reg_args_are_passthrough_witness :
    (OutArg.mk [1] (DefKind.copy 5)).regDef0 = DefKind.copy 5 :=
  preserved_reg_args_are_passthrough false [OutArg.mk [1] (DefKind.copy 5)]
    { locs := [Loc.reg 5], nextStackOffset := 0 } 0 [5] (by decide)
    (Loc.reg 5, OutArg.mk [1] (DefKind.copy 5)) (by decide) 5 rfl (by decide)

/-- C4: a variadic call accepted by the outgoing-argument eligibility
check has no stack-assigned outgoing argument: every classified slot of
an accepted variadic call is a register slot. -/
theorem varArg_tail_call_no_stack_args (outArgs : List OutArg) (res : ClassifyResult)
    (argFrameSize : Nat) (mask : List Nat)
    (hTrue : areCalleeOutgoingArgsTailCallable true outArgs (some res) argFrameSize mask
        = true)
    (p : Loc × OutArg) (hp : p ∈ res.locs.zip outArgs) :
    p.1.isRegLoc = true := by
  have h := areCalleeOutgoingArgs_locs true outArgs res argFrameSize mask hTrue p hp
  cases hl : p.1 with
  | reg r => simp [Loc.isRegLoc]
  | stack off => simp [tailCallableArgLoc, hl] at h

/-- Witness for C4: a variadic call whose single outgoing argument lands
in a caller-clobbered register is accepted, and its slot is a register
slot. -/
theorem varArg_tail_call_no_stack_args_witness :
    (Loc.reg 5).isRegLoc = true :=
  varArg_tail_call_no_stack_args [OutArg.mk [1] DefKind.nonCopyInstr]
    { locs := [Loc.reg 5], nextStackOffset := 0 } 0 [] (by decide)
    (Loc.reg 5, OutArg.mk [1] DefKind.nonCopyInstr) (by decide)

/-- C5: when the outgoing-argument check succeeds on a non-empty argument
list, the classified total outgoing stack bytes are at most the caller's
recorded incoming-argument-area size; and an empty outgoing argument
list always passes the whole check. -/
theorem outgoing_args_fit_caller_frame (isVarArg : Bool) (outArgs : List OutArg)
    (classified : Option ClassifyResult) (argFrameSize : Nat) (mask : List Nat) :
    (outArgs ≠ [] →
       areCalleeOutgoingArgsTailCallable isVarArg outArgs classified argFrameSize mask
           = true →
       ∀ res, classified = some res → res.nextStackOffset ≤ argFrameSize)
    ∧ areCalleeOutgoingArgsTailCallable isVarArg [] classified argFrameSize mask = true := by
  constructor
  · intro hne h res hcl
    subst hcl
    have hemp : outArgs.isEmpty = false := by
      cases outArgs with
      | nil => exact absurd rfl hne
      | cons a rest => rfl
    simp only [areCalleeOutgoingArgsTailCallable, hemp] at h
    by_cases hgt : res.nextStackOffset > argFrameSize
    · simp [hgt] at h
    · omega
  · simp [areCalleeOutgoingArgsTailCallable]

/-- Witness for C5: a call whose 2 outgoing stack bytes fit exactly into
the caller's 2-byte incoming argument area passes, giving the bound. -/
theorem outgoing_args_fit_caller_frame_witness : (2 : Nat) ≤ 2 :=
  (outgoing_args_fit_caller_frame false [OutArg.mk [1] DefKind.nonCopyInstr]
      (some { locs := [Loc.stack 0], nextStackOffset := 2 }) 2 []).1
    (by decide) (by decide) { locs := [Loc.stack 0], nextStackOffset := 2 } rfl

/-- C6: once eligibility steps 1-4 have passed (tail call requested, no
swifterror vreg, convention may be tail called, no disqualifying caller
argument), an active guaranteed-TCO policy decides the verdict as
exactly "the callee convention is in the strict guaranteed subset
(`Fast`) and caller and callee conventions are identical"; the verdict
does not consult the sibling-call checks of steps 6-7 (their inputs are
arbitrary here). -/
theorem gto_accepts_iff_fast_and_matching (calleeCC callerCC : CallingConv)
    (callerArgs : List CallerArg) (resultsCompat regmaskSubsetEq isVarArg : Bool)
    (outArgs : List OutArg) (classified : Option ClassifyResult)
    (argFrameSize : Nat) (mask : List Nat)
    (hMay : mayTailCallThisCC calleeCC = true)
    (hArgs : callerArgs.any (fun a => a.byVal || a.inReg || a.swiftError) = false) :
    isEligibleForTailCallOptimization true false calleeCC callerCC callerArgs true
        resultsCompat regmaskSubsetEq isVarArg outArgs classified argFrameSize mask
      = (canGuaranteeTCO calleeCC && (calleeCC == callerCC)) := by
  simp [isEligibleForTailCallOptimization, hMay, hArgs]

/-- Witness for C6: a `Fast`-to-`Fast` call under the guaranteed-TCO
policy evaluates to the accepting side of the equivalence. -/
theorem gto_accepts_iff_fast_and_matching_witness :
    isEligibleForTailCallOptimization true false CallingConv.Fast CallingConv.Fast []
        true false false false [] none 0 []
      = (canGuaranteeTCO CallingConv.Fast && (CallingConv.Fast == CallingConv.Fast)) :=
  gto_accepts_iff_fast_and_matching CallingConv.Fast CallingConv.Fast [] false false
    false [] none 0 [] (by decide) (by decide)

/-- C7: with the struct-return policy on, successfully lowering the
formal arguments of a function with a (nonzero-size) struct-return
parameter records a hidden struct-return register, and `lowerReturn` on
the nominal void return (no return vregs) then classifies exactly that
register with the i8-pointer type in place of the void return value. -/
theorem sret_replaces_void_return (args : List FormalArg) (vregs : List (List Nat))
    (st : FormalState)
    (hLower : lowerFormalArguments true args vregs = some st)
    (hSRet : ∃ a ∈ args, a.storeSize ≠ 0 ∧ a.structRet = true) :
    st.sret.isSome = true ∧
      lowerReturnTarget st.sret [] = ([st.sret.getD 0], some RetTy.i8ptr) := by
  obtain ⟨a, ha, hz, hsr⟩ := hSRet
  obtain ⟨i, hi⟩ := mem_enumArgs_of_mem args a ha 0
  have hs : st.sret.isSome = true :=
    lowerFormalArgsFrom_sret_set vregs (enumArgs 0 args) _ st (i, a) hi hz hsr hLower
  refine ⟨hs, ?_⟩
  obtain ⟨r, hr⟩ := Option.isSome_iff_exists.mp hs
  rw [hr]
  rfl

/-- Witness for C7: one 2-byte struct-return parameter in vreg 9. -/
theorem sret_replaces_void_return_witness :
    (FormalState.mk 1 [0] (some 9)).sret.isSome = true ∧
      lowerReturnTarget (FormalState.mk 1 [0] (some 9)).sret []
        = ([(FormalState.mk 1 [0] (some 9)).sret.getD 0], some RetTy.i8ptr) :=
  sret_replaces_void_return [FormalArg.mk 2 false false false false true] [[9]]
    (FormalState.mk 1 [0] (some 9)) (by decide)
    ⟨FormalArg.mk 2 false false false false true, by decide⟩

/-- C8 counterexample: a parameter with storage size zero carrying the
unsupported `inreg` attribute does not make formal-argument lowering
fail — the zero-size skip happens before the attribute check — so the
claim that lowering fails for any function having a parameter with an
unsupported attribute is false as stated. -/
theorem zeroSize_unsupported_param_accepted :
    unsupportedFormalAttr (FormalArg.mk 0 true false false false false) = true ∧
    lowerFormalArguments true [FormalArg.mk 0 true false false false false] [[7]]
      = some (FormalState.mk 0 [] none) := by decide

/-- C8 (amended): formal-argument lowering assigns slots to exactly the
parameters with nonzero storage size (zero-size parameters are skipped),
and returns failure whenever some parameter with nonzero storage size
carries an unsupported attribute (inreg, swiftself, swifterror or
nest). -/
theorem formalArgs_skip_zero_and_reject_unsupported (returnSRet : Bool)
    (args : List FormalArg) (vregs : List (List Nat)) :
    (∀ st, lowerFormalArguments returnSRet args vregs = some st →
       st.processed
         = ((enumArgs 0 args).filter (fun pa => pa.2.storeSize != 0)).map Prod.fst)
    ∧ ((∃ a ∈ args, a.storeSize ≠ 0 ∧ unsupportedFormalAttr a = true) →
       lowerFormalArguments returnSRet args vregs = none) := by
  constructor
  · intro st h
    have := lowerFormalArgsFrom_processed returnSRet vregs (enumArgs 0 args) _ st h
    simpa using this
  · rintro ⟨a, ha, hz, hattr⟩
    obtain ⟨i, hi⟩ := mem_enumArgs_of_mem args a ha 0
    exact lowerFormalArgsFrom_reject returnSRet vregs (enumArgs 0 args) _ (i, a) hi hz hattr

/-- Witness for the amended C8: a zero-size parameter followed by a
2-byte parameter; only the 2-byte parameter (position 1) is lowered. -/
theorem formalArgs_skip_zero_and_reject_unsupported_witness :
    (FormalState.mk 1 [1] none).processed
      = ((enumArgs 0 [FormalArg.mk 0 false false false false false,
                      FormalArg.mk 2 false false false false false]).filter
          (fun pa => pa.2.storeSize != 0)).map Prod.fst :=
  (formalArgs_skip_zero_and_reject_unsupported true
      [FormalArg.mk 0 false false false false false,
       FormalArg.mk 2 false false false false false] [[3]]).1
    (FormalState.mk 1 [1] none) (by decide)

/-- C9: when the caller function carries the branch-target-enforcement
attribute, `lowerTailCall` fails for every callee — register (indirect)
or symbolic (direct) alike, for every policy and classification — and
emits no instruction. -/
theorem lowerTailCall_bte_rejects_all (calleeIsReg guaranteedTailCallOpt : Bool)
    (argFrameSize : Nat) (classified : Option ClassifyResult) (handleOk : Bool) :
    lowerTailCall true calleeIsReg guaranteedTailCallOpt argFrameSize classified handleOk
      = (none, []) := rfl

/-- C10: `lowerCall` fails, before any eligibility analysis and without
emitting any instruction, whenever some argument occupies more than one
virtual register or a non-void return value occupies more than one
virtual register. -/
theorem lowerCall_multireg_rejected
    (origArgRegCounts : List Nat) (retVoid : Bool) (retRegCount : Nat)
    (isMustTailCall isTailCall hasSwiftErrorVReg : Bool)
    (calleeCC callerCC : CallingConv) (callerArgs : List CallerArg)
    (guaranteedTailCallOpt resultsCompat regmaskSubsetEq isVarArg : Bool)
    (outArgs : List OutArg) (classified : Option ClassifyResult)
    (argFrameSize : Nat) (mask : List Nat)
    (hasBTE calleeIsReg : Bool) (tcClassified : Option ClassifyResult)
    (tcHandleOk ordArgsOk ordRetOk : Bool)
    (h : (∃ n ∈ origArgRegCounts, 1 < n) ∨ (retVoid = false ∧ 1 < retRegCount)) :
    lowerCall origArgRegCounts retVoid retRegCount isMustTailCall isTailCall
        hasSwiftErrorVReg calleeCC callerCC callerArgs guaranteedTailCallOpt resultsCompat
        regmaskSubsetEq isVarArg outArgs classified argFrameSize mask hasBTE calleeIsReg
        tcClassified tcHandleOk ordArgsOk ordRetOk = (none, []) := by
  unfold lowerCall
  rcases h with ⟨n, hn, h1⟩ | ⟨hv, h1⟩
  · have hany : origArgRegCounts.any (fun n => n > 1) = true := by
      rw [List.any_eq_true]
      exact ⟨n, hn, by simpa using h1⟩
    simp [hany]
  · by_cases hany : origArgRegCounts.any (fun n => n > 1) = true
    · simp [hany]
    · simp [hany, hv, h1]

/-- Witness for C10: a call whose single argument spans two virtual
registers is rejected outright. -/
theorem lowerCall_multireg_rejected_witness :
    lowerCall [2] true 0 false true false CallingConv.C CallingConv.C [] false false false
        false [] none 0 [] false false none true true true = (none, []) :=
  lowerCall_multireg_rejected [2] true 0 false true false CallingConv.C CallingConv.C []
    false false false false [] none 0 [] false false none true true true
    (Or.inl ⟨2, by decide⟩)

end Z80CallLowering
